import Mathlib

/-!
# pynxt: the `_nxt.c` extension type

A shallow embedding of `src/pynxt/_nxt.c`, the CPython extension type that
wraps one connection to a Lego NXT brick, and theorems about its argument
validation, its closed-state guard and its use of the NXT library.

Conventions of the embedding:

* C `int` arguments are `Int` values (what `PyArg_ParseTupleAndKeywords`
  stored); the `unsigned short` arguments of `play_tone` are `Nat` values.
* The interpreter's error indicator, the extension object and the ordered log
  of NXT library calls form one explicit `Machine` state.  A C function
  returning `PyObject*` becomes a function returning `Option PyVal × Machine`,
  where `none` is the C `NULL`.
* The NXT library (`nxt.h`) is not part of the sources; its functions are
  represented by the `Call` they receive and an arbitrary oracle that gives
  the `int` each call returns.
-/

namespace Pynxt

/-- The two Python exception types raised by `_nxt.c`. -/
inductive ExcKind where
  | ValueError
  | IOError
deriving DecidableEq, Repr

/-- An exception stored in the error indicator by `PyErr_Format` or
`PyErr_SetString`: the exception type, the format string and the integer
arguments substituted for its `%d` places. -/
structure PyErr where
  kind : ExcKind
  fmt : String
  args : List Int
deriving DecidableEq, Repr

/-- The Python objects returned by the methods: `None`, a `bool`, an `int`,
or the receiver itself (`__enter__`). -/
inductive PyVal where
  | None
  | Bool (b : Bool)
  | Long (n : Int)
  | Self
deriving DecidableEq, Repr

/-- The four instantiations of the `DRIVE_FN(verb, direction)` template. -/
inductive DriveFn where
  | drive_forward
  | drive_backward
  | turn_left
  | turn_right
deriving DecidableEq, Repr

/-- One call into the NXT library, with the arguments passed after the
`NXT*` handle.  `drive d t p l r` stands for `NXT_driveforward`,
`NXT_drivebackward`, `NXT_turnleft` or `NXT_turnright` according to `d`.
`NXT_play_tone` is always called with the two further constant arguments
`0, NULL`, which are left out.  A port argument is the value of the C
expression `(sensor_port) port - 1` or `(motor_port) port - 1`. -/
inductive Call where
  | NXT_init
  | NXT_connect (mac_address : String)
  | NXT_destroy
  | NXT_play_tone (freq time : Nat)
  | NXT_stay_alive
  | NXT_initbutton (port : Int)
  | NXT_initlight (port : Int)
  | NXT_ispressed (port : Int)
  | drive (d : DriveFn) (time power left_port right_port : Int)
  | NXT_setmotor (port power : Int)
  | NXT_stopmotor (port : Int)
  | NXT_stopallmotors
  | NXT_battery_level
deriving DecidableEq, Repr

/-- Modelled from the spec: the NXT library behind `nxt.h` (its source is not
in the repository).  The spec gives the transport boundary as
`send(command) -> response | error`; a transport assigns to every library
call, given the calls made before it, the `int` that the call returns. -/
abbrev Transport := List Call → Call → Int

/-- The part of the library's `NXT` struct read by `_nxt.c`. -/
structure NXT where
  dev_id : Int
deriving DecidableEq, Repr

/-- The extension object: `typedef struct { PyObject_HEAD NXT nxt;
unsigned char closed; } nxtobject`.  Only 0 and 1 are ever stored in
`closed`, so it is a `Bool`. -/
structure nxtobject where
  nxt : NXT
  closed : Bool
deriving DecidableEq, Repr

/-- State threaded through a call: the receiver, the interpreter's error
indicator, and the log of NXT library calls made so far (oldest first). -/
structure Machine where
  self : nxtobject
  err : Option PyErr
  calls : List Call
deriving DecidableEq, Repr

/-- Replace the error indicator: `PyErr_Format(exc, fmt, args...)`. -/
def PyErr_Format (kind : ExcKind) (fmt : String) (args : List Int) (m : Machine) : Machine :=
  { m with err := some ⟨kind, fmt, args⟩ }

/-- Replace the error indicator: `PyErr_SetString(exc, msg)`. -/
def PyErr_SetString (kind : ExcKind) (msg : String) (m : Machine) : Machine :=
  { m with err := some ⟨kind, msg, []⟩ }

/-- Perform one NXT library call: it is appended to the log and the transport
decides the returned `int`. -/
def nxtlib (tr : Transport) (c : Call) (m : Machine) : Int × Machine :=
  (tr m.calls c, { m with calls := m.calls ++ [c] })

/-- The C function `validate_port`: -1 with a `ValueError` set unless
`1 <= port <= 4`. -/
def validate_port (port : Int) (m : Machine) : Int × Machine :=
  if port < 1 ∨ port > 4 then
    (-1, PyErr_Format .ValueError "Port must be 1-4, got: %d" [port] m)
  else
    (0, m)

/-- The C function `validate_power`: -1 with a `ValueError` set unless
`-100 <= power <= 100`. -/
def validate_power (power : Int) (m : Machine) : Int × Machine :=
  if power < -100 ∨ power > 100 then
    (-1, PyErr_Format .ValueError "Power must be in the range [-100, 100], got: %d" [power] m)
  else
    (0, m)

/-- The C function `check_closed`: -1 with an `IOError` set when the
connection is closed. -/
def check_closed (m : Machine) : Int × Machine :=
  if m.self.closed then
    (-1, PyErr_SetString .IOError "Cannot perform operation on closed NXT connection." m)
  else
    (0, m)

/-- The method `play_tone(freq, time)`. -/
def nxt_play_tone (tr : Transport) (freq time : Nat) (m : Machine) : Option PyVal × Machine :=
  let (c, m) := check_closed m
  if c ≠ 0 then (none, m) else
  let (r, m) := nxtlib tr (.NXT_play_tone freq time) m
  if r ≠ 0 then (none, PyErr_SetString .IOError "Failed to play a tone" m) else
  (some .None, m)

/-- The method `stay_alive()`. -/
def nxt_stay_alive (tr : Transport) (m : Machine) : Option PyVal × Machine :=
  let (c, m) := check_closed m
  if c ≠ 0 then (none, m) else
  let (r, m) := nxtlib tr .NXT_stay_alive m
  if r ≠ 0 then (none, PyErr_SetString .IOError "Failed to send stay_alve to the NXT" m) else
  (some .None, m)

/-- The method `init_button(port)`; the port check is written inline in the C
source. -/
def nxt_init_button (tr : Transport) (port : Int) (m : Machine) : Option PyVal × Machine :=
  if port < 1 ∨ port > 4 then
    (none, PyErr_Format .ValueError "Port must be 1-4, got: %d" [port] m)
  else
  let (c, m) := check_closed m
  if c ≠ 0 then (none, m) else
  let (r, m) := nxtlib tr (.NXT_initbutton (port - 1)) m
  if r ≠ 0 then
    (none, PyErr_Format .IOError "Failed to initalize the button on port %d" [port] m)
  else
  (some .None, m)

/-- The method `init_light(port)`. -/
def nxt_init_light (tr : Transport) (port : Int) (m : Machine) : Option PyVal × Machine :=
  let (v, m) := validate_port port m
  if v ≠ 0 then (none, m) else
  let (c, m) := check_closed m
  if c ≠ 0 then (none, m) else
  let (r, m) := nxtlib tr (.NXT_initlight (port - 1)) m
  if r ≠ 0 then
    (none, PyErr_Format .IOError "Failed to initalize the light on port %d" [port] m)
  else
  (some .None, m)

/-- The method `is_pressed(port)`; the result is `PyBool_FromLong(result)`. -/
def nxt_is_pressed (tr : Transport) (port : Int) (m : Machine) : Option PyVal × Machine :=
  let (v, m) := validate_port port m
  if v ≠ 0 then (none, m) else
  let (c, m) := check_closed m
  if c ≠ 0 then (none, m) else
  let (result, m) := nxtlib tr (.NXT_ispressed (port - 1)) m
  if result < 0 then
    (none, PyErr_Format .IOError "Failed to read the state of the button on port %d" [port] m)
  else
  (some (.Bool (decide (result ≠ 0))), m)

/-- The method `read_light(port)`; it calls `NXT_ispressed`, as the C source
does, and returns `PyLong_FromLong(result)`. -/
def nxt_read_light (tr : Transport) (port : Int) (m : Machine) : Option PyVal × Machine :=
  let (v, m) := validate_port port m
  if v ≠ 0 then (none, m) else
  let (c, m) := check_closed m
  if c ≠ 0 then (none, m) else
  let (result, m) := nxtlib tr (.NXT_ispressed (port - 1)) m
  if result < 0 then
    (none, PyErr_Format .IOError "Failed to read the state of the light sensor on port %d" [port] m)
  else
  (some (.Long result), m)

/-- The message `"Failed to " #verb " " #direction` of each instantiation. -/
def DriveFn.failure : DriveFn → String
  | .drive_forward => "Failed to drive forward"
  | .drive_backward => "Failed to drive backward"
  | .turn_left => "Failed to turn left"
  | .turn_right => "Failed to turn right"

/-- The function generated by `DRIVE_FN(verb, direction)`: the methods
`drive_forward`, `drive_backward`, `turn_left` and `turn_right`.  As in the C
source, the left test reads `left_port < 1 || right_port > 4`, and neither
port test returns after setting the error. -/
def DRIVE_FN (d : DriveFn) (tr : Transport) (time power left_port right_port : Int)
    (m : Machine) : Option PyVal × Machine :=
  let m := if left_port < 1 ∨ right_port > 4 then
      PyErr_Format .ValueError "Left port must be 1-4, got: %d" [left_port] m
    else m
  let m := if right_port < 1 ∨ right_port > 4 then
      PyErr_Format .ValueError "Right port must be 1-4, got: %d" [right_port] m
    else m
  let (v, m) := validate_power power m
  if v ≠ 0 then (none, m) else
  let (c, m) := check_closed m
  if c ≠ 0 then (none, m) else
  let (r, m) := nxtlib tr (.drive d time power (left_port - 1) (right_port - 1)) m
  if r ≠ 0 then (none, PyErr_SetString .IOError d.failure m) else
  (some .None, m)

/-- The method `set_motor(port, power)`. -/
def nxt_set_motor (tr : Transport) (port power : Int) (m : Machine) : Option PyVal × Machine :=
  let (v, m) := validate_port port m
  if v ≠ 0 then (none, m) else
  let (w, m) := validate_power power m
  if w ≠ 0 then (none, m) else
  let (c, m) := check_closed m
  if c ≠ 0 then (none, m) else
  let (r, m) := nxtlib tr (.NXT_setmotor (port - 1) power) m
  if r ≠ 0 then
    (none, PyErr_Format .IOError "Failed to set motor on port %d to %d" [port, power] m)
  else
  (some .None, m)

/-- The method `stop_motor(port)`. -/
def nxt_stop_motor (tr : Transport) (port : Int) (m : Machine) : Option PyVal × Machine :=
  let (v, m) := validate_port port m
  if v ≠ 0 then (none, m) else
  let (c, m) := check_closed m
  if c ≠ 0 then (none, m) else
  let (r, m) := nxtlib tr (.NXT_stopmotor (port - 1)) m
  if r ≠ 0 then
    (none, PyErr_Format .IOError "Failed to stop motor on port %d" [port] m)
  else
  (some .None, m)

/-- The method `stop_all_motors()`. -/
def nxt_stop_all_motors (tr : Transport) (m : Machine) : Option PyVal × Machine :=
  let (c, m) := check_closed m
  if c ≠ 0 then (none, m) else
  let (r, m) := nxtlib tr .NXT_stopallmotors m
  if r ≠ 0 then (none, PyErr_SetString .IOError "Failed to stop all motors." m) else
  (some .None, m)

/-- The method `close()`, also installed as `__exit__`. -/
def nxt_close (tr : Transport) (m : Machine) : Option PyVal × Machine :=
  if m.self.closed then (some .None, m) else
  let (_, m) := nxtlib tr .NXT_destroy m
  (some .None, { m with self := { m.self with closed := true } })

/-- The method `__enter__()`. -/
def nxt_enter (m : Machine) : Option PyVal × Machine :=
  let (c, m) := check_closed m
  if c ≠ 0 then (none, m) else
  (some .Self, m)

/-- The getter of the attribute `battery_level`. -/
def nxt_get_battery_level (tr : Transport) (m : Machine) : Option PyVal × Machine :=
  let (c, m) := check_closed m
  if c ≠ 0 then (none, m) else
  let (battery_level, m) := nxtlib tr .NXT_battery_level m
  if battery_level ≠ 0 then
    (none, PyErr_SetString .IOError "Failed to read the battery level" m)
  else
  (some (.Long battery_level), m)

/-- The getter of the attribute `dev_id`. -/
def nxt_get_dev_id (m : Machine) : Option PyVal × Machine :=
  let (c, m) := check_closed m
  if c ≠ 0 then (none, m) else
  (some (.Long m.self.nxt.dev_id), m)

/-- A call on an `NXT` object from Python: one entry of `nxt_methods` or
`nxt_getsets`, with its parsed arguments. -/
inductive Op where
  | play_tone (freq time : Nat)
  | stay_alive
  | init_button (port : Int)
  | init_light (port : Int)
  | is_pressed (port : Int)
  | read_light (port : Int)
  | drive (d : DriveFn) (time power left_port right_port : Int)
  | set_motor (port power : Int)
  | stop_motor (port : Int)
  | stop_all_motors
  | close
  | enter
  | exit
  | battery_level
  | dev_id
deriving DecidableEq, Repr

/-- Dispatch through the method and getter tables of `nxt_type`. -/
def Op.run (tr : Transport) : Op → Machine → Option PyVal × Machine
  | .play_tone f t => nxt_play_tone tr f t
  | .stay_alive => nxt_stay_alive tr
  | .init_button p => nxt_init_button tr p
  | .init_light p => nxt_init_light tr p
  | .is_pressed p => nxt_is_pressed tr p
  | .read_light p => nxt_read_light tr p
  | .drive d t pw l r => DRIVE_FN d tr t pw l r
  | .set_motor p pw => nxt_set_motor tr p pw
  | .stop_motor p => nxt_stop_motor tr p
  | .stop_all_motors => nxt_stop_all_motors tr
  | .close => nxt_close tr
  | .enter => nxt_enter
  | .exit => nxt_close tr
  | .battery_level => nxt_get_battery_level tr
  | .dev_id => nxt_get_dev_id

/-- The call failed with an exception of type `k`: the C function returned
`NULL` and the error indicator holds an exception of that type. -/
abbrev raises (k : ExcKind) (r : Option PyVal × Machine) : Prop :=
  r.1 = none ∧ r.2.err.map PyErr.kind = some k

/-- The six methods that take exactly one port (`set_motor` also takes a
power). -/
def singlePortOps (port power : Int) : List Op :=
  [.init_button port, .init_light port, .is_pressed port, .read_light port,
   .set_motor port power, .stop_motor port]

/-- An open connection to device 7 with no error pending and no library call
made yet. -/
def openMachine : Machine := ⟨⟨⟨7⟩, false⟩, none, []⟩

/-- The same connection after it has been closed. -/
def closedMachine : Machine := ⟨⟨⟨7⟩, true⟩, none, [.NXT_destroy]⟩

/-- A transport on which every library call returns 0. -/
def okTransport : Transport := fun _ _ => 0

/-- A transport on which every library call returns -1. -/
def failingTransport : Transport := fun _ _ => -1

/-- Is the call `close()` or `__exit__()`?  Both table entries point to
`nxt_close`. -/
def Op.isClose : Op → Bool
  | .close => true
  | .exit => true
  | _ => false

/-- A logical port number accepted by the port checks. -/
abbrev portInRange (port : Int) : Prop := 1 ≤ port ∧ port ≤ 4

/-- A power accepted by `validate_power`. -/
abbrev powerInRange (power : Int) : Prop := -100 ≤ power ∧ power ≤ 100

/-- All port and power arguments of the call are in range (and the
`unsigned short` arguments of `play_tone` fit in 16 bits). -/
def Op.argsInRange : Op → Prop
  | .play_tone f t => f < 65536 ∧ t < 65536
  | .init_button p => portInRange p
  | .init_light p => portInRange p
  | .is_pressed p => portInRange p
  | .read_light p => portInRange p
  | .drive _ _ pw l r => powerInRange pw ∧ portInRange l ∧ portInRange r
  | .set_motor p pw => portInRange p ∧ powerInRange pw
  | .stop_motor p => portInRange p
  | _ => True

instance Op.decArgsInRange (op : Op) : Decidable op.argsInRange := by
  cases op <;> unfold Op.argsInRange <;> infer_instance

/-- The call has an argument that a validation step returning `NULL` refuses:
the port of a single-port method, or a power. -/
def Op.refusedArg : Op → Prop
  | .init_button p => ¬ portInRange p
  | .init_light p => ¬ portInRange p
  | .is_pressed p => ¬ portInRange p
  | .read_light p => ¬ portInRange p
  | .drive _ _ pw _ _ => ¬ powerInRange pw
  | .set_motor p pw => ¬ portInRange p ∨ ¬ powerInRange pw
  | .stop_motor p => ¬ portInRange p
  | _ => False

instance Op.decRefusedArg (op : Op) : Decidable op.refusedArg := by
  cases op <;> unfold Op.refusedArg <;> infer_instance

/-- The calls that talk to the device: all but `close`, `__exit__`,
`__enter__` and `dev_id`. -/
def Op.isDeviceOp : Op → Bool
  | .close => false
  | .exit => false
  | .enter => false
  | .dev_id => false
  | _ => true

/-- What counts as a failure report of the library call made by the method:
a negative result for `is_pressed` and `read_light`, a nonzero one for the
others. -/
def Op.reportsFailure : Op → Int → Prop
  | .is_pressed _, status => status < 0
  | .read_light _, status => status < 0
  | _, status => status ≠ 0

instance Op.decReportsFailure (op : Op) (status : Int) : Decidable (op.reportsFailure status) := by
  cases op <;> unfold Op.reportsFailure <;> infer_instance

/-- The error indicator left by the two port tests of `DRIVE_FN`, which set an
error but do not return: the right-port error replaces the left-port one. -/
def drivePortErr (left_port right_port : Int) (e : Option PyErr) : Option PyErr :=
  if right_port < 1 ∨ right_port > 4 then
    some ⟨.ValueError, "Right port must be 1-4, got: %d", [right_port]⟩
  else if left_port < 1 ∨ right_port > 4 then
    some ⟨.ValueError, "Left port must be 1-4, got: %d", [left_port]⟩
  else e

/-- The destructor `nxt_dealloc`: `NXT_destroy` is called unless the
connection is closed; then the object is freed. -/
def nxt_dealloc (tr : Transport) (m : Machine) : Machine :=
  if m.self.closed then m else (nxtlib tr .NXT_destroy m).2

/-- The part of `nxt_new`, the constructor `NXT(mac_address)`, after the
arguments are parsed and `tp_alloc` has returned the zero-filled object.  `nxt` is the
content the library leaves in the object's `NXT` struct, `err` and `calls`
the error indicator and the library log before the call.  The C `||` calls
`NXT_connect` only when `NXT_init` returned 0.  On failure `closed` is set
before `Py_XDECREF` drops the only reference, which runs the destructor;
the `%s` of the message is already replaced by the address.  The result is
`some .Self` when the object is returned, and the machine holds the object. -/
def nxt_new (tr : Transport) (nxt : NXT) (mac_address : String) (err : Option PyErr)
    (calls : List Call) : Option PyVal × Machine :=
  let m : Machine := ⟨⟨nxt, false⟩, err, calls⟩
  let (i, m) := nxtlib tr .NXT_init m
  let (c, m) := if i ≠ 0 then (i, m) else nxtlib tr (.NXT_connect mac_address) m
  if c ≠ 0 then
    let m := { m with self := { m.self with closed := true } }
    let m := nxt_dealloc tr m
    (none, PyErr_SetString .IOError ("Failed to connect to a device at MAC: " ++ mac_address) m)
  else
    (some .Self, { m with self := { m.self with closed := false } })

/-- The object together with `ob_refcnt`, the reference count of its
`PyObject_HEAD` (a `Py_ssize_t`). -/
structure Heap where
  m : Machine
  ob_refcnt : Int
deriving DecidableEq, Repr

/-- CPython's `Py_DECREF(self)`: the count is decremented and, when it
reaches 0, the `tp_dealloc` of `nxt_type`, which is `nxt_dealloc`, runs. -/
def Py_DECREF (tr : Transport) (h : Heap) : Heap :=
  if h.ob_refcnt - 1 = 0 then ⟨nxt_dealloc tr h.m, h.ob_refcnt - 1⟩
  else ⟨h.m, h.ob_refcnt - 1⟩

/-- One call statement `n.op(...)` whose value is not kept.  In CPython the
value returned by a method is a reference owned by the caller, which releases
it; the references the interpreter takes and gives back around the call
cancel out.  `None`, the `bool` and the `int` are other objects.
`__enter__` returns the receiver, and `nxt_enter` returns it without
`Py_INCREF`, so releasing that result lowers the count of the receiver. -/
def callStmt (tr : Transport) (op : Op) (h : Heap) : Heap :=
  let (ret, m) := op.run tr h.m
  if ret = some .Self then Py_DECREF tr ⟨m, h.ob_refcnt⟩ else ⟨m, h.ob_refcnt⟩

/-- A sequence of call statements on one object, in order.  `nxt_dealloc`
writes no field of the object; a call made through the owner's pointer after
the destructor has run finds the fields as they were left. -/
def runOps (tr : Transport) : List Op → Heap → Heap
  | [], h => h
  | op :: ops, h => runOps tr ops (callStmt tr op h)

/-- The life of an object returned by `nxt_new`: its owner holds the one
reference, makes the calls `ops` and then releases the reference. -/
def lifetime (tr : Transport) (ops : List Op) (m : Machine) : Heap :=
  Py_DECREF tr (runOps tr ops ⟨m, 1⟩)

/-- The connection returned by `NXT("00:11:22:33:44:55")` on a transport on
which every call returns 0. -/
def connectedMachine : Machine :=
  ⟨⟨⟨7⟩, false⟩, none, [.NXT_init, .NXT_connect "00:11:22:33:44:55"]⟩

/-- A transport on which `NXT_init` returns 0 and every other call -1: the
connect handshake fails. -/
def handshakeFailingTransport : Transport :=
  fun _ c => if c = .NXT_init then 0 else -1

/-! ## Auxiliary lemmas -/

theorem portInRange_iff (port : Int) : portInRange port ↔ ¬ (port < 1 ∨ port > 4) := by
  unfold portInRange; omega

theorem powerInRange_iff (power : Int) :
    powerInRange power ↔ ¬ (power < -100 ∨ power > 100) := by
  unfold powerInRange; omega

theorem check_closed_of_closed (m : Machine) (h : m.self.closed = true) :
    check_closed m
      = (-1, PyErr_SetString .IOError "Cannot perform operation on closed NXT connection." m) := by
  simp [check_closed, h]

theorem check_closed_of_open (m : Machine) (h : m.self.closed = false) :
    check_closed m = (0, m) := by
  simp [check_closed, h]

/-- The body of `DRIVE_FN` as one chain of tests: the port tests only
contribute to the error indicator of the successful path. -/
theorem DRIVE_FN_eq (d : DriveFn) (tr : Transport) (t pw l r : Int) (m : Machine) :
    DRIVE_FN d tr t pw l r m =
      if pw < -100 ∨ pw > 100 then
        (none, ⟨m.self,
          some ⟨.ValueError, "Power must be in the range [-100, 100], got: %d", [pw]⟩, m.calls⟩)
      else if m.self.closed = true then
        (none, ⟨m.self,
          some ⟨.IOError, "Cannot perform operation on closed NXT connection.", []⟩, m.calls⟩)
      else if tr m.calls (.drive d t pw (l - 1) (r - 1)) ≠ 0 then
        (none, ⟨m.self, some ⟨.IOError, d.failure, []⟩,
          m.calls ++ [.drive d t pw (l - 1) (r - 1)]⟩)
      else
        (some .None, ⟨m.self, drivePortErr l r m.err,
          m.calls ++ [.drive d t pw (l - 1) (r - 1)]⟩) := by
  by_cases hl : l < 1 ∨ r > 4 <;> by_cases hr : r < 1 ∨ r > 4 <;>
    by_cases hw : pw < -100 ∨ pw > 100 <;> by_cases hc : m.self.closed = true <;>
    by_cases hres : tr m.calls (.drive d t pw (l - 1) (r - 1)) = 0 <;>
    simp [DRIVE_FN, validate_power, check_closed, nxtlib, PyErr_Format, PyErr_SetString,
      drivePortErr, hl, hr, hw, hc, hres]

/-- On a closed connection every call other than `close` returns `NULL` and
makes no library call; the exception is `IOError` when the arguments are in
range and `ValueError` when a validation step refuses one. -/
theorem run_closed (tr : Transport) (m : Machine) (op : Op)
    (hc : m.self.closed = true) (hop : op.isClose = false) :
    (op.run tr m).1 = none ∧ (op.run tr m).2.calls = m.calls ∧
      (op.argsInRange → raises .IOError (op.run tr m)) ∧
      (op.refusedArg → raises .ValueError (op.run tr m)) := by
  have hcc := check_closed_of_closed m hc
  cases op with
  | play_tone f t =>
    simp [raises, Op.run, Op.argsInRange, Op.refusedArg, portInRange_iff, powerInRange_iff, nxt_play_tone,
      validate_port, validate_power, hcc, PyErr_Format, PyErr_SetString]
  | stay_alive =>
    simp [raises, Op.run, Op.argsInRange, Op.refusedArg, portInRange_iff, powerInRange_iff, nxt_stay_alive,
      validate_port, validate_power, hcc, PyErr_Format, PyErr_SetString]
  | init_button p =>
    by_cases hp : p < 1 ∨ p > 4 <;>
      simp [raises, Op.run, Op.argsInRange, Op.refusedArg, portInRange_iff, powerInRange_iff, nxt_init_button,
        validate_port, validate_power, hcc, PyErr_Format, PyErr_SetString, hp]
  | init_light p =>
    by_cases hp : p < 1 ∨ p > 4 <;>
      simp [raises, Op.run, Op.argsInRange, Op.refusedArg, portInRange_iff, powerInRange_iff, nxt_init_light,
        validate_port, validate_power, hcc, PyErr_Format, PyErr_SetString, hp]
  | is_pressed p =>
    by_cases hp : p < 1 ∨ p > 4 <;>
      simp [raises, Op.run, Op.argsInRange, Op.refusedArg, portInRange_iff, powerInRange_iff, nxt_is_pressed,
        validate_port, validate_power, hcc, PyErr_Format, PyErr_SetString, hp]
  | read_light p =>
    by_cases hp : p < 1 ∨ p > 4 <;>
      simp [raises, Op.run, Op.argsInRange, Op.refusedArg, portInRange_iff, powerInRange_iff, nxt_read_light,
        validate_port, validate_power, hcc, PyErr_Format, PyErr_SetString, hp]
  | drive d t pw l r =>
    simp only [Op.run, DRIVE_FN_eq]
    by_cases hw : pw < -100 ∨ pw > 100 <;>
      simp [raises, Op.argsInRange, Op.refusedArg, powerInRange_iff, hc, hw]
  | set_motor p pw =>
    by_cases hp : p < 1 ∨ p > 4 <;> by_cases hw : pw < -100 ∨ pw > 100 <;>
      simp [raises, Op.run, Op.argsInRange, Op.refusedArg, portInRange_iff, powerInRange_iff, nxt_set_motor,
        validate_port, validate_power, hcc, PyErr_Format, PyErr_SetString, hp, hw]
  | stop_motor p =>
    by_cases hp : p < 1 ∨ p > 4 <;>
      simp [raises, Op.run, Op.argsInRange, Op.refusedArg, portInRange_iff, powerInRange_iff, nxt_stop_motor,
        validate_port, validate_power, hcc, PyErr_Format, PyErr_SetString, hp]
  | stop_all_motors =>
    simp [raises, Op.run, Op.argsInRange, Op.refusedArg, portInRange_iff, powerInRange_iff, nxt_stop_all_motors,
      validate_port, validate_power, hcc, PyErr_Format, PyErr_SetString]
  | close => simp [Op.isClose] at hop
  | enter =>
    simp [raises, Op.run, Op.argsInRange, Op.refusedArg, portInRange_iff, powerInRange_iff, nxt_enter,
      validate_port, validate_power, hcc, PyErr_Format, PyErr_SetString]
  | exit => simp [Op.isClose] at hop
  | battery_level =>
    simp [raises, Op.run, Op.argsInRange, Op.refusedArg, portInRange_iff, powerInRange_iff, nxt_get_battery_level,
      validate_port, validate_power, hcc, PyErr_Format, PyErr_SetString]
  | dev_id =>
    simp [raises, Op.run, Op.argsInRange, Op.refusedArg, portInRange_iff, powerInRange_iff, nxt_get_dev_id,
      validate_port, validate_power, hcc, PyErr_Format, PyErr_SetString]

/-- No call writes the receiver except `nxt_close`, which sets `closed`. -/
theorem run_self (tr : Transport) (op : Op) (m : Machine) :
    (op.run tr m).2.self
      = if op.isClose = true then { m.self with closed := true } else m.self := by
  cases op with
  | play_tone f t =>
    by_cases hc : m.self.closed = true <;> by_cases hres : tr m.calls (.NXT_play_tone f t) = 0 <;>
      simp [Op.run, Op.isClose, nxt_play_tone,
        validate_port, validate_power, check_closed, nxtlib, PyErr_Format, PyErr_SetString, hc, hres]
  | stay_alive =>
    by_cases hc : m.self.closed = true <;> by_cases hres : tr m.calls (.NXT_stay_alive) = 0 <;>
      simp [Op.run, Op.isClose, nxt_stay_alive,
        validate_port, validate_power, check_closed, nxtlib, PyErr_Format, PyErr_SetString, hc, hres]
  | init_button p =>
    by_cases hp : p < 1 ∨ p > 4 <;> by_cases hc : m.self.closed = true <;> by_cases hres : tr m.calls (.NXT_initbutton (p - 1)) = 0 <;>
      simp [Op.run, Op.isClose, nxt_init_button,
        validate_port, validate_power, check_closed, nxtlib, PyErr_Format, PyErr_SetString, hp, hc, hres]
  | init_light p =>
    by_cases hp : p < 1 ∨ p > 4 <;> by_cases hc : m.self.closed = true <;> by_cases hres : tr m.calls (.NXT_initlight (p - 1)) = 0 <;>
      simp [Op.run, Op.isClose, nxt_init_light,
        validate_port, validate_power, check_closed, nxtlib, PyErr_Format, PyErr_SetString, hp, hc, hres]
  | is_pressed p =>
    by_cases hp : p < 1 ∨ p > 4 <;> by_cases hc : m.self.closed = true <;> by_cases hres : tr m.calls (.NXT_ispressed (p - 1)) < 0 <;>
      simp [Op.run, Op.isClose, nxt_is_pressed,
        validate_port, validate_power, check_closed, nxtlib, PyErr_Format, PyErr_SetString, hp, hc, hres]
  | read_light p =>
    by_cases hp : p < 1 ∨ p > 4 <;> by_cases hc : m.self.closed = true <;> by_cases hres : tr m.calls (.NXT_ispressed (p - 1)) < 0 <;>
      simp [Op.run, Op.isClose, nxt_read_light,
        validate_port, validate_power, check_closed, nxtlib, PyErr_Format, PyErr_SetString, hp, hc, hres]
  | drive d t pw l r =>
    by_cases hw : pw < -100 ∨ pw > 100 <;> by_cases hc : m.self.closed = true <;> by_cases hres : tr m.calls (.drive d t pw (l - 1) (r - 1)) = 0 <;>
      simp [Op.run, Op.isClose, DRIVE_FN_eq,
        validate_port, validate_power, check_closed, nxtlib, PyErr_Format, PyErr_SetString, hw, hc, hres]
  | set_motor p pw =>
    by_cases hp : p < 1 ∨ p > 4 <;> by_cases hw : pw < -100 ∨ pw > 100 <;> by_cases hc : m.self.closed = true <;> by_cases hres : tr m.calls (.NXT_setmotor (p - 1) pw) = 0 <;>
      simp [Op.run, Op.isClose, nxt_set_motor,
        validate_port, validate_power, check_closed, nxtlib, PyErr_Format, PyErr_SetString, hp, hw, hc, hres]
  | stop_motor p =>
    by_cases hp : p < 1 ∨ p > 4 <;> by_cases hc : m.self.closed = true <;> by_cases hres : tr m.calls (.NXT_stopmotor (p - 1)) = 0 <;>
      simp [Op.run, Op.isClose, nxt_stop_motor,
        validate_port, validate_power, check_closed, nxtlib, PyErr_Format, PyErr_SetString, hp, hc, hres]
  | stop_all_motors =>
    by_cases hc : m.self.closed = true <;> by_cases hres : tr m.calls (.NXT_stopallmotors) = 0 <;>
      simp [Op.run, Op.isClose, nxt_stop_all_motors,
        validate_port, validate_power, check_closed, nxtlib, PyErr_Format, PyErr_SetString, hc, hres]
  | close =>
    rcases m with ⟨⟨n, c⟩, e, l⟩
    cases c <;> simp [Op.run, Op.isClose, nxt_close, nxtlib]
  | enter =>
    by_cases hc : m.self.closed = true <;>
      simp [Op.run, Op.isClose, nxt_enter,
        validate_port, validate_power, check_closed, nxtlib, PyErr_Format, PyErr_SetString, hc]
  | exit =>
    rcases m with ⟨⟨n, c⟩, e, l⟩
    cases c <;> simp [Op.run, Op.isClose, nxt_close, nxtlib]
  | battery_level =>
    by_cases hc : m.self.closed = true <;> by_cases hres : tr m.calls (.NXT_battery_level) = 0 <;>
      simp [Op.run, Op.isClose, nxt_get_battery_level,
        validate_port, validate_power, check_closed, nxtlib, PyErr_Format, PyErr_SetString, hc, hres]
  | dev_id =>
    by_cases hc : m.self.closed = true <;>
      simp [Op.run, Op.isClose, nxt_get_dev_id,
        validate_port, validate_power, check_closed, nxtlib, PyErr_Format, PyErr_SetString, hc]

/-- On an open connection a device call with its arguments in range makes
exactly one library call; it returns `NULL`, and then with an `IOError`,
exactly when that call reports failure, and a successful call leaves the error
indicator as it was. -/
theorem run_open (tr : Transport) (m : Machine) (op : Op)
    (ho : m.self.closed = false) (hd : op.isDeviceOp = true) (ha : op.argsInRange) :
    ∃ c, (op.run tr m).2.calls = m.calls ++ [c] ∧
      (raises .IOError (op.run tr m) ↔ op.reportsFailure (tr m.calls c)) ∧
      ((op.run tr m).1 = none ↔ op.reportsFailure (tr m.calls c)) ∧
      (¬ op.reportsFailure (tr m.calls c) → (op.run tr m).2.err = m.err) := by
  have hco := check_closed_of_open m ho
  cases op with
  | play_tone f t =>
    refine ⟨.NXT_play_tone f t, ?_⟩
    by_cases hres : tr m.calls (.NXT_play_tone f t) = 0 <;>
      simp [raises, Op.run, Op.reportsFailure, nxt_play_tone,
        validate_port, validate_power, hco, nxtlib, PyErr_Format, PyErr_SetString, hres]
  | stay_alive =>
    refine ⟨.NXT_stay_alive, ?_⟩
    by_cases hres : tr m.calls (.NXT_stay_alive) = 0 <;>
      simp [raises, Op.run, Op.reportsFailure, nxt_stay_alive,
        validate_port, validate_power, hco, nxtlib, PyErr_Format, PyErr_SetString, hres]
  | init_button p =>
    have hp : ¬ (p < 1 ∨ p > 4) := by simpa only [Op.argsInRange, portInRange_iff] using ha
    refine ⟨.NXT_initbutton (p - 1), ?_⟩
    by_cases hres : tr m.calls (.NXT_initbutton (p - 1)) = 0 <;>
      simp [raises, Op.run, Op.reportsFailure, nxt_init_button,
        validate_port, validate_power, hco, nxtlib, PyErr_Format, PyErr_SetString, hp, hres]
  | init_light p =>
    have hp : ¬ (p < 1 ∨ p > 4) := by simpa only [Op.argsInRange, portInRange_iff] using ha
    refine ⟨.NXT_initlight (p - 1), ?_⟩
    by_cases hres : tr m.calls (.NXT_initlight (p - 1)) = 0 <;>
      simp [raises, Op.run, Op.reportsFailure, nxt_init_light,
        validate_port, validate_power, hco, nxtlib, PyErr_Format, PyErr_SetString, hp, hres]
  | is_pressed p =>
    have hp : ¬ (p < 1 ∨ p > 4) := by simpa only [Op.argsInRange, portInRange_iff] using ha
    refine ⟨.NXT_ispressed (p - 1), ?_⟩
    by_cases hres : tr m.calls (.NXT_ispressed (p - 1)) < 0 <;>
      simp [raises, Op.run, Op.reportsFailure, nxt_is_pressed,
        validate_port, validate_power, hco, nxtlib, PyErr_Format, PyErr_SetString, hp, hres]
  | read_light p =>
    have hp : ¬ (p < 1 ∨ p > 4) := by simpa only [Op.argsInRange, portInRange_iff] using ha
    refine ⟨.NXT_ispressed (p - 1), ?_⟩
    by_cases hres : tr m.calls (.NXT_ispressed (p - 1)) < 0 <;>
      simp [raises, Op.run, Op.reportsFailure, nxt_read_light,
        validate_port, validate_power, hco, nxtlib, PyErr_Format, PyErr_SetString, hp, hres]
  | drive d t pw l r =>
    simp only [Op.argsInRange, portInRange_iff, powerInRange_iff] at ha
    obtain ⟨hw, hl, hr⟩ := ha
    have hl' : ¬ (l < 1 ∨ r > 4) := by omega
    refine ⟨.drive d t pw (l - 1) (r - 1), ?_⟩
    by_cases hres : tr m.calls (.drive d t pw (l - 1) (r - 1)) = 0 <;>
      simp [raises, Op.run, Op.reportsFailure, DRIVE_FN_eq, drivePortErr, ho,
        validate_port, validate_power, hco, nxtlib, PyErr_Format, PyErr_SetString, hw, hr, hl', hres]
  | set_motor p pw =>
    simp only [Op.argsInRange, portInRange_iff, powerInRange_iff] at ha
    obtain ⟨hp, hw⟩ := ha
    refine ⟨.NXT_setmotor (p - 1) pw, ?_⟩
    by_cases hres : tr m.calls (.NXT_setmotor (p - 1) pw) = 0 <;>
      simp [raises, Op.run, Op.reportsFailure, nxt_set_motor,
        validate_port, validate_power, hco, nxtlib, PyErr_Format, PyErr_SetString, hp, hw, hres]
  | stop_motor p =>
    have hp : ¬ (p < 1 ∨ p > 4) := by simpa only [Op.argsInRange, portInRange_iff] using ha
    refine ⟨.NXT_stopmotor (p - 1), ?_⟩
    by_cases hres : tr m.calls (.NXT_stopmotor (p - 1)) = 0 <;>
      simp [raises, Op.run, Op.reportsFailure, nxt_stop_motor,
        validate_port, validate_power, hco, nxtlib, PyErr_Format, PyErr_SetString, hp, hres]
  | stop_all_motors =>
    refine ⟨.NXT_stopallmotors, ?_⟩
    by_cases hres : tr m.calls (.NXT_stopallmotors) = 0 <;>
      simp [raises, Op.run, Op.reportsFailure, nxt_stop_all_motors,
        validate_port, validate_power, hco, nxtlib, PyErr_Format, PyErr_SetString, hres]
  | close => simp [Op.isDeviceOp] at hd
  | enter => simp [Op.isDeviceOp] at hd
  | exit => simp [Op.isDeviceOp] at hd
  | battery_level =>
    refine ⟨.NXT_battery_level, ?_⟩
    by_cases hres : tr m.calls (.NXT_battery_level) = 0 <;>
      simp [raises, Op.run, Op.reportsFailure, nxt_get_battery_level,
        validate_port, validate_power, hco, nxtlib, PyErr_Format, PyErr_SetString, hres]
  | dev_id => simp [Op.isDeviceOp] at hd

/-! ## Claims -/

/-- C1: with a port outside 1..4, each of `init_button`, `init_light`,
`is_pressed`, `read_light`, `set_motor` and `stop_motor` returns `NULL` with a
`ValueError` set, makes no NXT library call and leaves `closed` as it was,
whatever the state of the connection and the power; for `set_motor(5, 10)` the
error is the port-range message. -/
theorem invalid_port_rejected (tr : Transport) (m : Machine) (port power : Int)
    (h : port < 1 ∨ port > 4) :
    (∀ op ∈ singlePortOps port power,
      raises .ValueError (op.run tr m) ∧ (op.run tr m).2.calls = m.calls ∧
        (op.run tr m).2.self.closed = m.self.closed) ∧
    (nxt_set_motor tr 5 10 m).2.err = some ⟨.ValueError, "Port must be 1-4, got: %d", [5]⟩ ∧
    (nxt_set_motor tr 5 10 m).2.calls = m.calls := by
  refine ⟨?_, ?_, ?_⟩
  · intro op hop
    simp only [singlePortOps, List.mem_cons, List.mem_singleton, List.not_mem_nil, or_false] at hop
    rcases hop with rfl | rfl | rfl | rfl | rfl | rfl <;>
      simp [raises, Op.run, nxt_init_button, nxt_init_light, nxt_is_pressed, nxt_read_light,
        nxt_set_motor, nxt_stop_motor, validate_port, PyErr_Format, h]
  · simp [nxt_set_motor, validate_port, PyErr_Format]
  · simp [nxt_set_motor, validate_port, PyErr_Format]

/-- Witness of C1 on a closed connection with port 0. -/
theorem invalid_port_rejected_witness :
    ((0 : Int) < 1 ∨ (0 : Int) > 4) ∧
    ((∀ op ∈ singlePortOps 0 10,
      raises .ValueError (op.run okTransport closedMachine) ∧
        (op.run okTransport closedMachine).2.calls = closedMachine.calls ∧
        (op.run okTransport closedMachine).2.self.closed = closedMachine.self.closed) ∧
    (nxt_set_motor okTransport 5 10 closedMachine).2.err
      = some ⟨.ValueError, "Port must be 1-4, got: %d", [5]⟩ ∧
    (nxt_set_motor okTransport 5 10 closedMachine).2.calls = closedMachine.calls) :=
  ⟨by decide, invalid_port_rejected okTransport closedMachine 0 10 (by decide)⟩

/-- C2: the four drive methods do not stop on a port outside 1..4.  On an open
connection `drive_forward(1, 50, 5, 2)` sets no error, calls the library with
ports 4 and 1 and returns `None`; `drive_forward(1, 50, 0, 2)` sets the left
`ValueError` but still calls the library and returns `None`; with both ports
0 the error left in the indicator is the one for the right port. -/
theorem drive_invalid_port_reaches_transport :
    DRIVE_FN .drive_forward okTransport 1 50 5 2 openMachine
      = (some .None, ⟨openMachine.self, none, [.drive .drive_forward 1 50 4 1]⟩) ∧
    DRIVE_FN .drive_forward okTransport 1 50 0 2 openMachine
      = (some .None, ⟨openMachine.self,
          some ⟨.ValueError, "Left port must be 1-4, got: %d", [0]⟩,
          [.drive .drive_forward 1 50 (-1) 1]⟩) ∧
    DRIVE_FN .drive_forward okTransport 1 50 0 0 openMachine
      = (some .None, ⟨openMachine.self,
          some ⟨.ValueError, "Right port must be 1-4, got: %d", [0]⟩,
          [.drive .drive_forward 1 50 (-1) (-1)]⟩) := by
  refine ⟨?_, ?_, ?_⟩ <;>
    simp [DRIVE_FN, validate_power, check_closed, nxtlib, PyErr_Format, openMachine,
      okTransport]

/-- C3: with a power outside -100..100, `set_motor` and the four drive
methods return `NULL` with a `ValueError` set and make no NXT library call,
for every port, time and state of the connection; `drive_forward(1, 150, 1, 2)`
leaves the power-range message. -/
theorem invalid_power_rejected (tr : Transport) (m : Machine) (w : Int)
    (h : w < -100 ∨ w > 100) :
    (∀ port, raises .ValueError (nxt_set_motor tr port w m) ∧
      (nxt_set_motor tr port w m).2.calls = m.calls) ∧
    (∀ d time left_port right_port,
      raises .ValueError (DRIVE_FN d tr time w left_port right_port m) ∧
      (DRIVE_FN d tr time w left_port right_port m).2.calls = m.calls) ∧
    DRIVE_FN .drive_forward tr 1 150 1 2 m
      = (none, ⟨m.self,
          some ⟨.ValueError, "Power must be in the range [-100, 100], got: %d", [150]⟩,
          m.calls⟩) := by
  refine ⟨?_, ?_, ?_⟩
  · intro port
    by_cases hp : port < 1 ∨ port > 4 <;>
      simp [raises, nxt_set_motor, validate_port, validate_power, PyErr_Format, h, hp]
  · intro d time left_port right_port
    by_cases hl : left_port < 1 ∨ right_port > 4 <;>
      by_cases hr : right_port < 1 ∨ right_port > 4 <;>
      simp [raises, DRIVE_FN, validate_power, PyErr_Format, h, hl, hr]
  · simp [DRIVE_FN, validate_power, PyErr_Format]

/-- Witness of C3 on an open connection with power 150. -/
theorem invalid_power_rejected_witness :
    ((150 : Int) < -100 ∨ (150 : Int) > 100) ∧
    ((∀ port, raises .ValueError (nxt_set_motor okTransport port 150 openMachine) ∧
      (nxt_set_motor okTransport port 150 openMachine).2.calls = openMachine.calls) ∧
    (∀ d time left_port right_port,
      raises .ValueError (DRIVE_FN d okTransport time 150 left_port right_port openMachine) ∧
      (DRIVE_FN d okTransport time 150 left_port right_port openMachine).2.calls
        = openMachine.calls) ∧
    DRIVE_FN .drive_forward okTransport 1 150 1 2 openMachine
      = (none, ⟨openMachine.self,
          some ⟨.ValueError, "Power must be in the range [-100, 100], got: %d", [150]⟩,
          openMachine.calls⟩)) :=
  ⟨by decide, invalid_power_rejected okTransport openMachine 150 (by decide)⟩

/-- C4: on a closed connection every call other than `close` (and `__exit__`),
with its arguments in range, returns `NULL` with an `IOError` set and makes no
NXT library call. -/
theorem closed_session_refuses (tr : Transport) (m : Machine) (op : Op)
    (hc : m.self.closed = true) (hop : op.isClose = false) (ha : op.argsInRange) :
    raises .IOError (op.run tr m) ∧ (op.run tr m).2.calls = m.calls :=
  ⟨(run_closed tr m op hc hop).2.2.1 ha, (run_closed tr m op hc hop).2.1⟩

/-- Witness of C4: `drive_forward(2, 50, 1, 2)` on a closed connection. -/
theorem closed_session_refuses_witness :
    closedMachine.self.closed = true ∧ (Op.drive .drive_forward 2 50 1 2).isClose = false ∧
    (Op.drive .drive_forward 2 50 1 2).argsInRange ∧
    raises .IOError ((Op.drive .drive_forward 2 50 1 2).run okTransport closedMachine) ∧
    ((Op.drive .drive_forward 2 50 1 2).run okTransport closedMachine).2.calls
      = closedMachine.calls :=
  ⟨rfl, rfl, by decide,
    closed_session_refuses okTransport closedMachine (.drive .drive_forward 2 50 1 2) rfl rfl
      (by decide)⟩

/-- C5 (as stated, refuted): after `close()` on an open connection,
`set_motor(5, 10)` fails with the port `ValueError`, not with the `IOError` of
a closed connection. -/
theorem after_close_invalid_port_is_value_error :
    Op.run okTransport (.set_motor 5 10) (nxt_close okTransport openMachine).2
      = (none, ⟨⟨⟨7⟩, true⟩, some ⟨.ValueError, "Port must be 1-4, got: %d", [5]⟩,
          [.NXT_destroy]⟩) ∧
    ¬ raises .IOError
        (Op.run okTransport (.set_motor 5 10) (nxt_close okTransport openMachine).2) := by
  constructor <;>
    simp [raises, Op.run, nxt_close, nxt_set_motor, validate_port, nxtlib, PyErr_Format,
      openMachine]

/-- C5 (amended): after `close()`, every call other than `close` (and
`__exit__`) returns `NULL` and makes no NXT library call; it fails with
`IOError` when its port and power arguments are in range or it takes none,
and with `ValueError` when the port of a single-port method or a power is out
of range. -/
theorem after_close_every_call_fails (tr tr' : Transport) (m : Machine) (op : Op)
    (hop : op.isClose = false) :
    (op.run tr' (nxt_close tr m).2).1 = none ∧
    (op.run tr' (nxt_close tr m).2).2.calls = (nxt_close tr m).2.calls ∧
    (op.argsInRange → raises .IOError (op.run tr' (nxt_close tr m).2)) ∧
    (op.refusedArg → raises .ValueError (op.run tr' (nxt_close tr m).2)) := by
  have hc : (nxt_close tr m).2.self.closed = true := by
    by_cases h : m.self.closed = true <;> simp [nxt_close, nxtlib, h]
  exact run_closed tr' (nxt_close tr m).2 op hc hop

/-- Witness of C5 (amended): `stay_alive()` after `close()`. -/
theorem after_close_every_call_fails_witness :
    Op.stay_alive.isClose = false ∧
    ((Op.stay_alive.run okTransport (nxt_close okTransport openMachine).2).1 = none ∧
    (Op.stay_alive.run okTransport (nxt_close okTransport openMachine).2).2.calls
      = (nxt_close okTransport openMachine).2.calls ∧
    (Op.stay_alive.argsInRange →
      raises .IOError (Op.stay_alive.run okTransport (nxt_close okTransport openMachine).2)) ∧
    (Op.stay_alive.refusedArg →
      raises .ValueError
        (Op.stay_alive.run okTransport (nxt_close okTransport openMachine).2))) :=
  ⟨rfl, after_close_every_call_fails okTransport okTransport openMachine .stay_alive rfl⟩

/-- C6: on a closed connection a drive method with a port outside 1..4 and a
power in range fails with the `IOError` of `check_closed`, not with a
`ValueError`: `drive_forward(1, 50, 0, 2)` sets the left-port error, goes on,
and `check_closed` replaces it; `drive_forward(1, 50, 5, 2)` sets no
`ValueError` at all. -/
theorem closed_drive_invalid_port_is_io_error :
    DRIVE_FN .drive_forward okTransport 1 50 0 2 closedMachine
      = (none, ⟨closedMachine.self,
          some ⟨.IOError, "Cannot perform operation on closed NXT connection.", []⟩,
          closedMachine.calls⟩) ∧
    DRIVE_FN .drive_forward okTransport 1 50 5 2 closedMachine
      = (none, ⟨closedMachine.self,
          some ⟨.IOError, "Cannot perform operation on closed NXT connection.", []⟩,
          closedMachine.calls⟩) := by
  constructor <;>
    simp [DRIVE_FN, validate_power, check_closed, PyErr_Format, PyErr_SetString, closedMachine]

/-- C7: `close()` never fails and is idempotent: it returns `None`, sets no
error and leaves `closed` true; a second `close()` returns `None` and changes
nothing; `NXT_destroy` is called exactly when the connection was open, so a
`close()` on a closed connection makes no library call. -/
theorem close_idempotent (tr tr' : Transport) (m : Machine) :
    (nxt_close tr m).1 = some .None ∧
    (nxt_close tr m).2.err = m.err ∧
    (nxt_close tr m).2.self.closed = true ∧
    nxt_close tr' (nxt_close tr m).2 = (some .None, (nxt_close tr m).2) ∧
    (nxt_close tr m).2.calls
      = (if m.self.closed = true then m.calls else m.calls ++ [.NXT_destroy]) := by
  by_cases h : m.self.closed = true <;> simp [nxt_close, nxtlib, h]

/-- C8: `closed` after a call is `closed` before it, or true when the call is
`close` or `__exit__`; hence a closed connection stays closed, every other
call leaves `closed` as it was whether it succeeds or fails, and no call
changes `dev_id`. -/
theorem closed_flag_monotone (tr : Transport) (op : Op) (m : Machine) :
    (op.run tr m).2.self.closed = (m.self.closed || op.isClose) ∧
    (m.self.closed = true → (op.run tr m).2.self.closed = true) ∧
    (op.isClose = false → (op.run tr m).2.self.closed = m.self.closed) ∧
    (op.run tr m).2.self.nxt.dev_id = m.self.nxt.dev_id := by
  rw [run_self]
  by_cases h : op.isClose = true <;> simp [h]

/-- C9: on an open connection, a device call with its arguments in range makes
one library call and fails, with an `IOError`, exactly when that call reports
failure (nonzero; negative for `is_pressed` and `read_light`); whatever the
outcome `closed` stays false, so the next device call again makes its library
call; `stop_all_motors()` on a failing transport leaves the
"Failed to stop all motors." `IOError` and an open connection. -/
theorem device_error_iff_transport_failure (tr tr' : Transport) (m : Machine) (op op' : Op)
    (ho : m.self.closed = false) (hd : op.isDeviceOp = true) (ha : op.argsInRange)
    (hd' : op'.isDeviceOp = true) (ha' : op'.argsInRange) :
    (∃ c, (op.run tr m).2.calls = m.calls ++ [c] ∧
      (raises .IOError (op.run tr m) ↔ op.reportsFailure (tr m.calls c)) ∧
      ((op.run tr m).1 = none ↔ op.reportsFailure (tr m.calls c))) ∧
    (op.run tr m).2.self.closed = false ∧
    (∃ c', (op'.run tr' (op.run tr m).2).2.calls = (op.run tr m).2.calls ++ [c']) ∧
    nxt_stop_all_motors failingTransport openMachine
      = (none, ⟨⟨⟨7⟩, false⟩, some ⟨.IOError, "Failed to stop all motors.", []⟩,
          [.NXT_stopallmotors]⟩) := by
  have hclose : op.isClose = false := by cases op <;> simp_all [Op.isDeviceOp, Op.isClose]
  have hself : (op.run tr m).2.self.closed = false := by
    rw [run_self]; simp [hclose, ho]
  obtain ⟨c, h1, h2, h3, -⟩ := run_open tr m op ho hd ha
  obtain ⟨c', h1', -⟩ := run_open tr' (op.run tr m).2 op' hself hd' ha'
  refine ⟨⟨c, h1, h2, h3⟩, hself, ⟨c', h1'⟩, ?_⟩
  simp [nxt_stop_all_motors, check_closed, nxtlib, PyErr_SetString, failingTransport,
    openMachine]

/-- Witness of C9: `stop_all_motors()` on a failing transport, then
`stay_alive()`. -/
theorem device_error_iff_transport_failure_witness :
    openMachine.self.closed = false ∧ Op.stop_all_motors.isDeviceOp = true ∧
    Op.stop_all_motors.argsInRange ∧ Op.stay_alive.isDeviceOp = true ∧
    Op.stay_alive.argsInRange ∧
    ((∃ c, (Op.stop_all_motors.run failingTransport openMachine).2.calls
        = openMachine.calls ++ [c] ∧
      (raises .IOError (Op.stop_all_motors.run failingTransport openMachine) ↔
        Op.stop_all_motors.reportsFailure (failingTransport openMachine.calls c)) ∧
      ((Op.stop_all_motors.run failingTransport openMachine).1 = none ↔
        Op.stop_all_motors.reportsFailure (failingTransport openMachine.calls c))) ∧
    (Op.stop_all_motors.run failingTransport openMachine).2.self.closed = false ∧
    (∃ c', (Op.stay_alive.run okTransport
          (Op.stop_all_motors.run failingTransport openMachine).2).2.calls
        = (Op.stop_all_motors.run failingTransport openMachine).2.calls ++ [c']) ∧
    nxt_stop_all_motors failingTransport openMachine
      = (none, ⟨⟨⟨7⟩, false⟩, some ⟨.IOError, "Failed to stop all motors.", []⟩,
          [.NXT_stopallmotors]⟩)) :=
  ⟨rfl, rfl, by decide, rfl, by decide,
    device_error_iff_transport_failure failingTransport okTransport openMachine
      .stop_all_motors .stay_alive rfl rfl (by decide) rfl (by decide)⟩

/-- C10: on an open connection, with ports in 1..4 and power in -100..100,
each port-taking method makes exactly one library call, carrying `port - 1`
for each port and the power and time as given; `drive_forward(2, 50, 1, 2)`
calls the forward drive with time 2, power 50 and ports 0 and 1; a drive
method whose library call returns 0 returns `None` and sets no error. -/
theorem one_command_with_physical_ports (tr : Transport) (m : Machine) (d : DriveFn)
    (port power time left_port right_port : Int) (ho : m.self.closed = false)
    (hp : portInRange port) (hw : powerInRange power)
    (hl : portInRange left_port) (hr : portInRange right_port) :
    (nxt_init_button tr port m).2.calls = m.calls ++ [.NXT_initbutton (port - 1)] ∧
    (nxt_init_light tr port m).2.calls = m.calls ++ [.NXT_initlight (port - 1)] ∧
    (nxt_is_pressed tr port m).2.calls = m.calls ++ [.NXT_ispressed (port - 1)] ∧
    (nxt_read_light tr port m).2.calls = m.calls ++ [.NXT_ispressed (port - 1)] ∧
    (nxt_set_motor tr port power m).2.calls = m.calls ++ [.NXT_setmotor (port - 1) power] ∧
    (nxt_stop_motor tr port m).2.calls = m.calls ++ [.NXT_stopmotor (port - 1)] ∧
    (DRIVE_FN d tr time power left_port right_port m).2.calls
      = m.calls ++ [.drive d time power (left_port - 1) (right_port - 1)] ∧
    (DRIVE_FN .drive_forward tr 2 50 1 2 m).2.calls
      = m.calls ++ [.drive .drive_forward 2 50 0 1] ∧
    (tr m.calls (.drive d time power (left_port - 1) (right_port - 1)) = 0 →
      DRIVE_FN d tr time power left_port right_port m
        = (some .None, ⟨m.self, m.err,
            m.calls ++ [.drive d time power (left_port - 1) (right_port - 1)]⟩)) := by
  rw [portInRange_iff] at hp hl hr
  rw [powerInRange_iff] at hw
  have hco := check_closed_of_open m ho
  have hl' : ¬ (left_port < 1 ∨ right_port > 4) := by omega
  refine ⟨?_, ?_, ?_, ?_, ?_, ?_, ?_, ?_, ?_⟩
  · by_cases hres : tr m.calls (.NXT_initbutton (port - 1)) = 0 <;>
      simp [nxt_init_button, hco, nxtlib, PyErr_Format, hp, hres]
  · by_cases hres : tr m.calls (.NXT_initlight (port - 1)) = 0 <;>
      simp [nxt_init_light, validate_port, hco, nxtlib, PyErr_Format, hp, hres]
  · by_cases hres : tr m.calls (.NXT_ispressed (port - 1)) < 0 <;>
      simp [nxt_is_pressed, validate_port, hco, nxtlib, PyErr_Format, hp, hres]
  · by_cases hres : tr m.calls (.NXT_ispressed (port - 1)) < 0 <;>
      simp [nxt_read_light, validate_port, hco, nxtlib, PyErr_Format, hp, hres]
  · by_cases hres : tr m.calls (.NXT_setmotor (port - 1) power) = 0 <;>
      simp [nxt_set_motor, validate_port, validate_power, hco, nxtlib, PyErr_Format, hp, hw,
        hres]
  · by_cases hres : tr m.calls (.NXT_stopmotor (port - 1)) = 0 <;>
      simp [nxt_stop_motor, validate_port, hco, nxtlib, PyErr_Format, hp, hres]
  · by_cases hres : tr m.calls (.drive d time power (left_port - 1) (right_port - 1)) = 0 <;>
      simp [DRIVE_FN_eq, ho, hw, hres]
  · by_cases hres : tr m.calls (.drive .drive_forward 2 50 0 1) = 0 <;>
      simp [DRIVE_FN_eq, ho, hres]
  · intro hres
    simp [DRIVE_FN_eq, drivePortErr, ho, hw, hr, hl', hres]

/-- Witness of C10 on an open connection: port 3, power -100, ports 1 and 2. -/
theorem one_command_with_physical_ports_witness :
    openMachine.self.closed = false ∧ portInRange 3 ∧ powerInRange (-100) ∧
    portInRange 1 ∧ portInRange 2 ∧
    ((nxt_init_button okTransport 3 openMachine).2.calls
      = openMachine.calls ++ [.NXT_initbutton (3 - 1)] ∧
    (nxt_init_light okTransport 3 openMachine).2.calls
      = openMachine.calls ++ [.NXT_initlight (3 - 1)] ∧
    (nxt_is_pressed okTransport 3 openMachine).2.calls
      = openMachine.calls ++ [.NXT_ispressed (3 - 1)] ∧
    (nxt_read_light okTransport 3 openMachine).2.calls
      = openMachine.calls ++ [.NXT_ispressed (3 - 1)] ∧
    (nxt_set_motor okTransport 3 (-100) openMachine).2.calls
      = openMachine.calls ++ [.NXT_setmotor (3 - 1) (-100)] ∧
    (nxt_stop_motor okTransport 3 openMachine).2.calls
      = openMachine.calls ++ [.NXT_stopmotor (3 - 1)] ∧
    (DRIVE_FN .turn_left okTransport 9 (-100) 1 2 openMachine).2.calls
      = openMachine.calls ++ [.drive .turn_left 9 (-100) (1 - 1) (2 - 1)] ∧
    (DRIVE_FN .drive_forward okTransport 2 50 1 2 openMachine).2.calls
      = openMachine.calls ++ [.drive .drive_forward 2 50 0 1] ∧
    (okTransport openMachine.calls (.drive .turn_left 9 (-100) (1 - 1) (2 - 1)) = 0 →
      DRIVE_FN .turn_left okTransport 9 (-100) 1 2 openMachine
        = (some .None, ⟨openMachine.self, openMachine.err,
            openMachine.calls ++ [.drive .turn_left 9 (-100) (1 - 1) (2 - 1)]⟩))) :=
  ⟨rfl, by decide, by decide, by decide, by decide,
    one_command_with_physical_ports okTransport openMachine .turn_left 3 (-100) 9 1 2 rfl
      (by decide) (by decide) (by decide) (by decide)⟩

/-- C11 (as stated, refuted): a failed connect makes no `NXT_destroy` call.
When `NXT_init` fails the only library call is `NXT_init`; when the handshake
fails the calls are `NXT_init` and `NXT_connect`; in both cases `closed` is set
before the object is dropped, so the destructor skips `NXT_destroy`. -/
theorem failed_connect_does_not_destroy :
    (nxt_new failingTransport ⟨0⟩ "00:11:22:33:44:55" none []).1 = none ∧
    (nxt_new failingTransport ⟨0⟩ "00:11:22:33:44:55" none []).2.calls = [.NXT_init] ∧
    (nxt_new handshakeFailingTransport ⟨0⟩ "00:11:22:33:44:55" none []).1 = none ∧
    (nxt_new handshakeFailingTransport ⟨0⟩ "00:11:22:33:44:55" none []).2.calls
      = [.NXT_init, .NXT_connect "00:11:22:33:44:55"] ∧
    Call.NXT_destroy ∉ (nxt_new failingTransport ⟨0⟩ "00:11:22:33:44:55" none []).2.calls ∧
    Call.NXT_destroy ∉
      (nxt_new handshakeFailingTransport ⟨0⟩ "00:11:22:33:44:55" none []).2.calls := by
  simp [nxt_new, nxt_dealloc, nxtlib, PyErr_SetString, failingTransport,
    handshakeFailingTransport]

/-- C11 (amended): when `NXT_init` or `NXT_connect` returns nonzero, the
constructor returns `NULL` with an `IOError` whose message ends with the
address; the object is marked closed and dropped, and the library calls made
are `NXT_init` and, if that returned 0, `NXT_connect`: `NXT_destroy` is not
called. -/
theorem failed_connect_raises (tr : Transport) (nxt : NXT) (mac_address : String)
    (err : Option PyErr) (calls : List Call)
    (h : tr calls .NXT_init ≠ 0 ∨
      tr (calls ++ [.NXT_init]) (.NXT_connect mac_address) ≠ 0) :
    (nxt_new tr nxt mac_address err calls).1 = none ∧
    (nxt_new tr nxt mac_address err calls).2.err
      = some ⟨.IOError, "Failed to connect to a device at MAC: " ++ mac_address, []⟩ ∧
    (nxt_new tr nxt mac_address err calls).2.self.closed = true ∧
    ∃ cmds, (nxt_new tr nxt mac_address err calls).2.calls = calls ++ cmds ∧
      Call.NXT_destroy ∉ cmds ∧
      cmds = if tr calls .NXT_init ≠ 0 then [.NXT_init]
        else [.NXT_init, .NXT_connect mac_address] := by
  by_cases hi : tr calls .NXT_init = 0
  · have hc : tr (calls ++ [.NXT_init]) (.NXT_connect mac_address) ≠ 0 := by
      rcases h with h | h
      · exact absurd hi h
      · exact h
    simp [nxt_new, nxt_dealloc, nxtlib, PyErr_SetString, hi, hc]
  · simp [nxt_new, nxt_dealloc, nxtlib, PyErr_SetString, hi]

/-- Witness of C11 (amended): the handshake fails after `NXT_init` succeeded. -/
theorem failed_connect_raises_witness :
    (handshakeFailingTransport [] .NXT_init ≠ 0 ∨
      handshakeFailingTransport ([] ++ [.NXT_init]) (.NXT_connect "00:11:22:33:44:55") ≠ 0) ∧
    ((nxt_new handshakeFailingTransport ⟨0⟩ "00:11:22:33:44:55" none []).1 = none ∧
    (nxt_new handshakeFailingTransport ⟨0⟩ "00:11:22:33:44:55" none []).2.err
      = some ⟨.IOError, "Failed to connect to a device at MAC: " ++ "00:11:22:33:44:55", []⟩ ∧
    (nxt_new handshakeFailingTransport ⟨0⟩ "00:11:22:33:44:55" none []).2.self.closed = true ∧
    ∃ cmds, (nxt_new handshakeFailingTransport ⟨0⟩ "00:11:22:33:44:55" none []).2.calls
        = [] ++ cmds ∧
      Call.NXT_destroy ∉ cmds ∧
      cmds = if handshakeFailingTransport [] .NXT_init ≠ 0 then [.NXT_init]
        else [.NXT_init, .NXT_connect "00:11:22:33:44:55"]) :=
  ⟨Or.inr (by simp [handshakeFailingTransport]),
    failed_connect_raises handshakeFailingTransport ⟨0⟩ "00:11:22:33:44:55" none []
      (Or.inr (by simp [handshakeFailingTransport]))⟩

/-- C12: on an open connection `battery_level` fails with an `IOError`
exactly when `NXT_battery_level` returns nonzero, and otherwise returns that
same value; so the only value it ever returns is 0. -/
theorem battery_level_returns_zero_only (tr : Transport) (m : Machine)
    (ho : m.self.closed = false) :
    (raises .IOError (nxt_get_battery_level tr m) ↔ tr m.calls .NXT_battery_level ≠ 0) ∧
    (tr m.calls .NXT_battery_level = 0 →
      (nxt_get_battery_level tr m).1 = some (.Long (tr m.calls .NXT_battery_level))) ∧
    (∀ v, (nxt_get_battery_level tr m).1 = some v → v = .Long 0) ∧
    (∀ n, n ≠ 0 → (nxt_get_battery_level tr m).1 ≠ some (.Long n)) := by
  have hco := check_closed_of_open m ho
  by_cases hres : tr m.calls .NXT_battery_level = 0
  · simp [raises, nxt_get_battery_level, hco, nxtlib, PyErr_SetString, hres]
    intro n hn h0
    exact hn h0.symm
  · simp [raises, nxt_get_battery_level, hco, nxtlib, PyErr_SetString, hres]

/-- Witness of C12: a transport that reports 7400 makes `battery_level` fail. -/
theorem battery_level_returns_zero_only_witness :
    openMachine.self.closed = false ∧
    ((raises .IOError (nxt_get_battery_level (fun _ _ => 7400) openMachine) ↔
      (fun _ _ => 7400 : Transport) openMachine.calls .NXT_battery_level ≠ 0) ∧
    ((fun _ _ => 7400 : Transport) openMachine.calls .NXT_battery_level = 0 →
      (nxt_get_battery_level (fun _ _ => 7400) openMachine).1
        = some (.Long ((fun _ _ => 7400 : Transport) openMachine.calls .NXT_battery_level))) ∧
    (∀ v, (nxt_get_battery_level (fun _ _ => 7400) openMachine).1 = some v → v = .Long 0) ∧
    (∀ n, n ≠ 0 → (nxt_get_battery_level (fun _ _ => 7400) openMachine).1 ≠ some (.Long n))) :=
  ⟨rfl, battery_level_returns_zero_only (fun _ _ => 7400) openMachine rfl⟩

/-- C13: `read_light(port)` and `is_pressed(port)` make the same library
calls, none or the single `NXT_ispressed(port - 1)`; both return `NULL`
exactly when the port is outside 1..4, the connection is closed or
`NXT_ispressed` returns a negative value, then with the same exception type;
otherwise `read_light` returns the value `n` of `NXT_ispressed` and
`is_pressed` returns the boolean `n ≠ 0`. -/
theorem read_light_is_button_probe (tr : Transport) (m : Machine) (port : Int) :
    (nxt_read_light tr port m).2.calls = (nxt_is_pressed tr port m).2.calls ∧
    ((nxt_read_light tr port m).2.calls = m.calls ∨
      (nxt_read_light tr port m).2.calls = m.calls ++ [.NXT_ispressed (port - 1)]) ∧
    ((nxt_read_light tr port m).1 = none ↔ (nxt_is_pressed tr port m).1 = none) ∧
    ((nxt_read_light tr port m).1 = none ↔
      ((port < 1 ∨ port > 4) ∨ m.self.closed = true ∨
        tr m.calls (.NXT_ispressed (port - 1)) < 0)) ∧
    ((nxt_read_light tr port m).1 = none →
      (nxt_read_light tr port m).2.err.map PyErr.kind
        = (nxt_is_pressed tr port m).2.err.map PyErr.kind) ∧
    (∀ n b, (nxt_read_light tr port m).1 = some (.Long n) →
      (nxt_is_pressed tr port m).1 = some (.Bool b) → (b = true ↔ n ≠ 0)) ∧
    ((nxt_read_light tr port m).1 ≠ none →
      (nxt_read_light tr port m).1 = some (.Long (tr m.calls (.NXT_ispressed (port - 1)))) ∧
      (nxt_is_pressed tr port m).1
        = some (.Bool (decide (tr m.calls (.NXT_ispressed (port - 1)) ≠ 0)))) := by
  by_cases hp : port < 1 ∨ port > 4 <;> by_cases hc : m.self.closed = true <;>
    by_cases hres : tr m.calls (.NXT_ispressed (port - 1)) < 0 <;>
    simp [nxt_read_light, nxt_is_pressed, validate_port, check_closed, nxtlib, PyErr_Format,
      PyErr_SetString, hp, hc, hres]
  intro n
  constructor
  · intro h h0
    rw [← h]
    exact h0
  · intro h h0
    rw [← h]
    exact h0

/-- C14: the release is not tied to `close` or to the end of the owner's
scope.  `nxt_enter` returns the receiver without `Py_INCREF`, so on the
connection returned by `nxt_new` the statement `n.__enter__()` takes the count
to 0 and runs `nxt_dealloc`: `NXT_destroy` is called while `closed` is still
0 and the owner still holds the object.  A following `n.stay_alive()` passes
`check_closed` and calls `NXT_stay_alive` after `NXT_destroy`, and the owner's
own release at the end finds the count at 0 already.  Without `__enter__` the
same life ends with the one `NXT_destroy` as the last call. -/
theorem enter_result_release_destroys_open_session :
    nxt_new okTransport ⟨7⟩ "00:11:22:33:44:55" none [] = (some .Self, connectedMachine) ∧
    runOps okTransport [.enter] ⟨connectedMachine, 1⟩
      = ⟨⟨⟨⟨7⟩, false⟩, none,
          [.NXT_init, .NXT_connect "00:11:22:33:44:55", .NXT_destroy]⟩, 0⟩ ∧
    runOps okTransport [.enter, .stay_alive] ⟨connectedMachine, 1⟩
      = ⟨⟨⟨⟨7⟩, false⟩, none,
          [.NXT_init, .NXT_connect "00:11:22:33:44:55", .NXT_destroy, .NXT_stay_alive]⟩, 0⟩ ∧
    lifetime okTransport [.enter, .stay_alive] connectedMachine
      = ⟨⟨⟨⟨7⟩, false⟩, none,
          [.NXT_init, .NXT_connect "00:11:22:33:44:55", .NXT_destroy, .NXT_stay_alive]⟩, -1⟩ ∧
    lifetime okTransport [.stay_alive] connectedMachine
      = ⟨⟨⟨⟨7⟩, false⟩, none,
          [.NXT_init, .NXT_connect "00:11:22:33:44:55", .NXT_stay_alive, .NXT_destroy]⟩, 0⟩ := by
  refine ⟨?_, ?_, ?_, ?_, ?_⟩ <;>
    simp [nxt_new, lifetime, runOps, callStmt, Py_DECREF, nxt_dealloc, Op.run, nxt_enter,
      nxt_stay_alive, check_closed, nxtlib, connectedMachine, okTransport]

end Pynxt
